import Mathlib

/-!
Verification of the TubeLingo client core (`src/App.jsx`).

The file shallowly embeds the state-bearing logic of the single React
component `TubeLingoApp`: the data model (study bundle, quiz bank, user
stats, app state), the analyze-request handler `handleUrlSubmit`, the
transcript synchronizer `onProgress`, the quiz-session builder
`generateQuiz`, the word saver `saveWord`, and the reward accumulator
`finishQuiz`.  JavaScript idioms are mapped as follows: `undefined` /
missing values become `Option`, `Array.prototype.findIndex`'s `-1`
becomes `Option.none`, numbers used as indices/counters become `Nat`
(with `Int` where JS arithmetic can go negative, e.g. `idx - 1`),
playback timestamps become `Rat`, and the two sources of randomness in
`generateQuiz` (`Math.random` for the padding index and the
`sort(() => Math.random() - 0.5)` shuffle) become explicit parameters:
a `pick` function giving the padding index chosen at each loop step and
a Boolean comparator `le` driving the in-place sort, modelled with
`List.mergeSort`.  In-place mutation of the array aliased by
`questions` (via `push` and `sort`) is made explicit: `generateQuiz`
returns the updated `activeData`, whose bank reflects the mutation that
the alias performs when the difficulty filter came up empty.
-/

namespace TubeLingo

/-- A transcript line: `{time, text, kr}` in the server payload. -/
structure TranscriptLine where
  time : Rat
  text : String
  kr : String
deriving Repr, DecidableEq, Inhabited

/-- A vocabulary entry: `{word, type, meaning}` in the server payload. -/
structure VocabEntry where
  word : String
  type : String
  meaning : String
deriving Repr, DecidableEq, Inhabited

/-- A saved vocabulary entry: a `VocabEntry` spread together with the
save date string, as built by `saveWord`. -/
structure SavedWord where
  word : String
  type : String
  meaning : String
  date : String
deriving Repr, DecidableEq, Inhabited

/-- A quiz-bank entry: `{question, options, answer, rationale, difficulty}`. -/
structure QuizQuestion where
  question : String
  options : List String
  answer : Nat
  rationale : String
  difficulty : String
deriving Repr, DecidableEq, Inhabited

/-- A session question: a `QuizQuestion` spread together with the
session-local `id` assigned by `generateQuiz`. -/
structure SessionQuestion where
  question : String
  options : List String
  answer : Nat
  rationale : String
  difficulty : String
  id : Nat
deriving Repr, DecidableEq, Inhabited

/-- The analyze response body (the fields the component reads).  The
quiz bank is optional to reflect the duck-typed payload: the guard in
`generateQuiz` tests `!activeData?.quizBank` before testing emptiness. -/
structure AnalyzeData where
  videoId : String
  script : List TranscriptLine
  vocabulary : List VocabEntry
  quizBank : Option (List QuizQuestion)
deriving Repr, DecidableEq, Inhabited

/-- The stored `activeData`: the analyze response spread together with
the derived `thumbnail` locator. -/
structure ActiveData where
  videoId : String
  script : List TranscriptLine
  vocabulary : List VocabEntry
  quizBank : Option (List QuizQuestion)
  thumbnail : String
deriving Repr, DecidableEq, Inhabited

/-- The `userStats` state object. -/
structure UserStats where
  xp : Nat
  streak : Nat
  todayXp : Nat
  goalXp : Nat
  savedWords : List SavedWord
deriving Repr, DecidableEq, Inhabited

/-- The `quizConfig` state object. -/
structure QuizConfig where
  count : Nat
  difficulty : String
deriving Repr, DecidableEq, Inhabited

/-- The view modes routed by the component. -/
inductive View where
  | home
  | analyzing
  | study
  | quiz_setup
  | quiz
  | result
  | dashboard
deriving Repr, DecidableEq, Inhabited

/-- The component's state: one field per `useState` hook. -/
structure AppState where
  view : View
  activeTab : String
  urlInput : String
  activeData : Option ActiveData
  isLoading : Bool
  errorMsg : String
  userStats : UserStats
  playing : Bool
  currentScriptIdx : Nat
  quizConfig : QuizConfig
  quizSession : List SessionQuestion
  currentQIdx : Nat
  selectedOpt : Option Nat
  isAnswered : Bool
  isCorrect : Bool
  score : Nat
deriving Repr, DecidableEq, Inhabited

/-- The initial `userStats` value (`useState({...})` at lines 94-100). -/
def initialUserStats : UserStats :=
  { xp := 1250, streak := 12, todayXp := 40, goalXp := 100, savedWords := [] }

/-- The component's state before any user action: each `useState`
initialiser. -/
def initialState : AppState :=
  { view := View.home
    activeTab := "study"
    urlInput := ""
    activeData := none
    isLoading := false
    errorMsg := ""
    userStats := initialUserStats
    playing := false
    currentScriptIdx := 0
    quizConfig := { count := 5, difficulty := "normal" }
    quizSession := []
    currentQIdx := 0
    selectedOpt := none
    isAnswered := false
    isCorrect := false
    score := 0 }

/-! ### Analyze request handler (`handleUrlSubmit`, lines 118-156) -/

/-- The resolution of the one `fetch` call: a parsed success body, a
non-`ok` response whose parsed body optionally carries `detail`, or a
thrown network/parse error with its message. -/
inductive FetchOutcome where
  | success (data : AnalyzeData)
  | httpError (detail : Option String)
  | networkError (message : String)
deriving Repr, DecidableEq, Inhabited

/-- Whether the fetch outcome takes the `catch` path. -/
def FetchOutcome.isError : FetchOutcome → Bool
  | .success _ => false
  | .httpError _ => true
  | .networkError _ => true

/-- The fallback error message `'분석에 실패했습니다.'` (line 136). -/
def analyzeFailDefault : String := "분석에 실패했습니다."

/-- The thumbnail locator derived from the video id (line 144). -/
def thumbnailUrl (videoId : String) : String :=
  "https://img.youtube.com/vi/" ++ videoId ++ "/mqdefault.jpg"

/-- `handleUrlSubmit`: guard on empty input, then
`setIsLoading(true); setErrorMsg(''); setView('analyzing')`, then the
branch on the fetch outcome.  `errData.detail || default` maps missing
and empty `detail` to the default message. -/
def handleUrlSubmit (outcome : FetchOutcome) (s : AppState) : AppState :=
  if s.urlInput = "" then s
  else
    let s1 : AppState := { s with isLoading := true, errorMsg := "", view := View.analyzing }
    match outcome with
    | .success data =>
        { s1 with
            activeData := some
              { videoId := data.videoId
                script := data.script
                vocabulary := data.vocabulary
                quizBank := data.quizBank
                thumbnail := thumbnailUrl data.videoId }
            view := View.study
            playing := true
            isLoading := false }
    | .httpError detail =>
        { s1 with
            errorMsg :=
              match detail with
              | some d => if d = "" then analyzeFailDefault else d
              | none => analyzeFailDefault
            view := View.home
            isLoading := false }
    | .networkError message =>
        { s1 with errorMsg := message, view := View.home, isLoading := false }

/-- The user-facing error text the spec ascribes to a failed analyze
call: the collaborator's `detail` (when present and non-empty) or the
thrown error's message, with the default filling the gaps. -/
def errorTextOf : FetchOutcome → String
  | .success _ => ""
  | .httpError (some d) => if d = "" then analyzeFailDefault else d
  | .httpError none => analyzeFailDefault
  | .networkError message => message

/-! ### Word saving (`saveWord`, lines 166-173) -/

/-- `saveWord`: a no-op when `find` locates an entry with the same
surface form; otherwise append the entry spread with the current date. -/
def saveWord (today : String) (v : VocabEntry) (stats : UserStats) : UserStats :=
  if (stats.savedWords.find? (fun w => w.word == v.word)).isSome then stats
  else
    { stats with
        savedWords := stats.savedWords ++
          [{ word := v.word, type := v.type, meaning := v.meaning, date := today }] }

/-! ### Transcript synchronizer (`onProgress`, lines 325-331) -/

/-- `script.findIndex(line => line.time > playedSeconds)`, with `-1`
rendered as `none`. -/
def findFirstExceeding (t : Rat) : List TranscriptLine → Option Nat
  | [] => none
  | line :: rest =>
    if t < line.time then some 0
    else (findFirstExceeding t rest).map (fun i => i + 1)

/-- The `onProgress` handler body: scan for the first line whose time
strictly exceeds `t`; when found at `idx` with `idx - 1 !==
currentScriptIdx` (JS integer arithmetic, hence `Int`), store
`Math.max(0, idx - 1)` (= `Int.toNat (idx - 1)`).  Returns the pair
(whether the state setter was invoked, the active index afterwards). -/
def onProgress (script : List TranscriptLine) (current : Nat) (t : Rat) : Bool × Nat :=
  match findFirstExceeding t script with
  | none => (false, current)
  | some idx =>
    if (idx : Int) - 1 ≠ (current : Int) then (true, ((idx : Int) - 1).toNat)
    else (false, current)

/-! ### Quiz session builder (`generateQuiz`, lines 180-209) -/

/-- The alert text for an absent or empty quiz bank (line 183). -/
def emptyBankAlert : String := "생성된 퀴즈 데이터가 없습니다."

/-- The padding loop
`while (questions.length < count) questions.push(questions[floor(random()*len)])`:
`pick n` is the random index drawn when the list has length `n`
(reduced `% n` to its JS range; for the unreachable empty list `getD`
supplies a default, mirroring `push(undefined)`). -/
def padQuestions (pick : Nat → Nat) (count : Nat) (qs : List QuizQuestion) :
    List QuizQuestion :=
  if qs.length < count then
    padQuestions pick count (qs ++ [qs.getD (pick qs.length % qs.length) default])
  else qs
termination_by count - qs.length
decreasing_by simp; omega

/-- `{...q, id: i}` at position `i` (the `.map((q, i) => ...)` body). -/
def mkSessionQuestion (q : QuizQuestion) (i : Nat) : SessionQuestion :=
  { question := q.question
    options := q.options
    answer := q.answer
    rationale := q.rationale
    difficulty := q.difficulty
    id := i }

/-- `.map((q, i) => ({...q, id: i}))` starting at index `i`. -/
def assignIdsFrom (i : Nat) : List QuizQuestion → List SessionQuestion
  | [] => []
  | q :: qs => mkSessionQuestion q i :: assignIdsFrom (i + 1) qs

/-- `.map((q, i) => ({...q, id: i}))`. -/
def assignIds (qs : List QuizQuestion) : List SessionQuestion := assignIdsFrom 0 qs

/-- `generateQuiz`: guard on an absent/empty bank (alert, no state
change), difficulty filter with whole-bank fallback, the padding loop,
the in-place shuffle `sort(() => Math.random() - 0.5)` modelled as
`mergeSort` under an arbitrary Boolean comparator `le`, truncation with
`slice(0, count)`, id assignment, and the state updates.  Because
`questions` aliases `activeData.quizBank` exactly when the filter came
up empty, and `push`/`sort` mutate the array in place, the stored bank
after the call is the padded-and-sorted array in that case; the result
pairs the new state with the alert message, when one was shown. -/
def generateQuiz (pick : Nat → Nat) (le : QuizQuestion → QuizQuestion → Bool)
    (s : AppState) : AppState × Option String :=
  match s.activeData with
  | none => (s, some emptyBankAlert)
  | some data =>
    match data.quizBank with
    | none => (s, some emptyBankAlert)
    | some bank =>
      if bank.length = 0 then (s, some emptyBankAlert)
      else
        let filtered := bank.filter (fun q => q.difficulty == s.quizConfig.difficulty)
        let questions := if filtered.length = 0 then bank else filtered
        let padded := padQuestions pick s.quizConfig.count questions
        let shuffled := padded.mergeSort le
        let sessionQuestions := assignIds (shuffled.take s.quizConfig.count)
        let bankAfter := if filtered.length = 0 then shuffled else bank
        ({ s with
            activeData := some { data with quizBank := some bankAfter }
            quizSession := sessionQuestions
            currentQIdx := 0
            score := 0
            selectedOpt := none
            isAnswered := false
            view := View.quiz }, none)

/-! ### Reward accumulator (`finishQuiz`, lines 229-237) -/

/-- `finishQuiz`: add `score * 10 + 20` to `xp` and `todayXp`, leave the
other stats alone, and show the result view. -/
def finishQuiz (s : AppState) : AppState :=
  let gainedXp := s.score * 10 + 20
  { s with
      userStats :=
        { s.userStats with
            xp := s.userStats.xp + gainedXp
            todayXp := s.userStats.todayXp + gainedXp }
      view := View.result }

/-! ### Derived observations and concrete fixtures -/

/-- Whether the guard at the top of `generateQuiz` fires: the quiz bank
is absent (`!activeData?.quizBank`) or has length `0`. -/
def bankMissingOrEmpty (s : AppState) : Bool :=
  match s.activeData with
  | none => true
  | some data =>
    match data.quizBank with
    | none => true
    | some bank => bank.length == 0

/-- The length of the stored quiz bank, when one is stored. -/
def storedBankLength (s : AppState) : Option Nat :=
  match s.activeData with
  | none => none
  | some data => data.quizBank.map List.length

/-- A deterministic instance of the padding randomness: always draw 0. -/
def pick0 : Nat → Nat := fun _ => 0

/-- A deterministic instance of the shuffle comparator. -/
def leTrue : QuizQuestion → QuizQuestion → Bool := fun _ _ => true

/-- A two-line sorted transcript fixture. -/
def demoScript : List TranscriptLine :=
  [{ time := 0, text := "hello", kr := "안녕" },
   { time := 10, text := "world", kr := "세계" }]

/-- A one-line transcript fixture. -/
def shortScript : List TranscriptLine :=
  [{ time := 5, text := "hi", kr := "안녕" }]

/-- An easy-tagged bank question fixture. -/
def easyQuestion : QuizQuestion :=
  { question := "q1", options := ["a", "b", "c"], answer := 0,
    rationale := "r1", difficulty := "easy" }

/-- A second easy-tagged bank question fixture. -/
def easyQuestion2 : QuizQuestion :=
  { question := "q2", options := ["d", "e"], answer := 1,
    rationale := "r2", difficulty := "easy" }

/-- A third easy-tagged bank question fixture. -/
def easyQuestion3 : QuizQuestion :=
  { question := "q3", options := ["f", "g"], answer := 0,
    rationale := "r3", difficulty := "easy" }

/-- A stored study bundle whose bank holds one easy question. -/
def demoActive : ActiveData :=
  { videoId := "v", script := demoScript, vocabulary := [],
    quizBank := some [easyQuestion], thumbnail := "" }

/-- The app about to generate a 3-question easy quiz from the one-question bank. -/
def setupState : AppState :=
  { initialState with
      view := View.quiz_setup
      activeData := some demoActive
      quizConfig := { count := 3, difficulty := "easy" } }

/-- The app about to generate a 3-question easy quiz from a three-question easy bank. -/
def bigBankState : AppState :=
  { setupState with
      activeData := some
        { demoActive with quizBank := some [easyQuestion, easyQuestion2, easyQuestion3] } }

/-- The app asking for difficulty `hard` against the all-easy bank: the
difficulty filter comes up empty and `questions` aliases the bank. -/
def fallbackState : AppState :=
  { setupState with quizConfig := { count := 3, difficulty := "hard" } }

/-- The quiz-setup view with no study bundle (hence no quiz bank). -/
def emptyBankState : AppState :=
  { initialState with view := View.quiz_setup }

/-- The home view with a non-empty URL typed in. -/
def urlTypedState : AppState :=
  { initialState with urlInput := "https://youtu.be/x" }

/-- A vocabulary entry fixture. -/
def demoWord : VocabEntry :=
  { word := "apple", type := "noun", meaning := "사과" }

/-! ### Helper lemmas -/

theorem padQuestions_count_le (pick : Nat → Nat) (count : Nat) (qs : List QuizQuestion) :
    count ≤ (padQuestions pick count qs).length := by
  induction qs using padQuestions.induct pick count with
  | case1 qs h ih =>
    rw [padQuestions, if_pos h]
    exact ih
  | case2 qs h =>
    rw [padQuestions, if_neg h]
    omega

theorem padQuestions_length (pick : Nat → Nat) (count : Nat) (qs : List QuizQuestion) :
    (padQuestions pick count qs).length = max count qs.length := by
  induction qs using padQuestions.induct pick count with
  | case1 qs h ih =>
    rw [padQuestions, if_pos h, ih]
    simp
    omega
  | case2 qs h =>
    rw [padQuestions, if_neg h]
    omega

theorem padQuestions_mem (pick : Nat → Nat) (count : Nat) (qs : List QuizQuestion)
    (hne : qs ≠ []) : ∀ q ∈ padQuestions pick count qs, q ∈ qs := by
  induction qs using padQuestions.induct pick count with
  | case1 qs h ih =>
    intro q hq
    rw [padQuestions, if_pos h] at hq
    have hlen : 0 < qs.length := List.length_pos.mpr hne
    have hidx : pick qs.length % qs.length < qs.length := Nat.mod_lt _ hlen
    have hd : qs.getD (pick qs.length % qs.length) default ∈ qs := by
      rw [List.getD_eq_getElem qs default hidx]
      exact List.getElem_mem hidx
    have hq2 := ih (by simp) q hq
    rcases List.mem_append.mp hq2 with h1 | h1
    · exact h1
    · rw [List.mem_singleton] at h1
      rw [h1]
      exact hd
  | case2 qs h =>
    intro q hq
    rw [padQuestions, if_neg h] at hq
    exact hq

theorem assignIdsFrom_length (i : Nat) (qs : List QuizQuestion) :
    (assignIdsFrom i qs).length = qs.length := by
  induction qs generalizing i with
  | nil => rfl
  | cons q qs ih => simp [assignIdsFrom, ih]

theorem assignIdsFrom_map_id (i : Nat) (qs : List QuizQuestion) :
    (assignIdsFrom i qs).map SessionQuestion.id = List.range' i qs.length := by
  induction qs generalizing i with
  | nil => rfl
  | cons q qs ih => simp [assignIdsFrom, List.range', ih, mkSessionQuestion]

theorem assignIdsFrom_difficulty (i : Nat) (qs : List QuizQuestion) :
    ∀ sq ∈ assignIdsFrom i qs, ∃ q ∈ qs, sq.difficulty = q.difficulty := by
  induction qs generalizing i with
  | nil => simp [assignIdsFrom]
  | cons q qs ih =>
    intro sq hsq
    rw [assignIdsFrom] at hsq
    rcases List.mem_cons.mp hsq with h1 | h1
    · exact ⟨q, List.mem_cons_self q qs, by rw [h1]; rfl⟩
    · obtain ⟨p, hp, he⟩ := ih (i + 1) sq h1
      exact ⟨p, List.mem_cons_of_mem q hp, he⟩

theorem assignIds_length (qs : List QuizQuestion) : (assignIds qs).length = qs.length :=
  assignIdsFrom_length 0 qs

theorem assignIds_map_id (qs : List QuizQuestion) :
    (assignIds qs).map SessionQuestion.id = List.range qs.length := by
  rw [assignIds, assignIdsFrom_map_id, List.range_eq_range']

theorem findFirstExceeding_some (t : Rat) (script : List TranscriptLine) (j : Nat)
    (h : findFirstExceeding t script = some j) :
    j < script.length ∧ t < (script.getD j default).time ∧
      ∀ i < j, ¬ t < (script.getD i default).time := by
  induction script generalizing j with
  | nil => simp [findFirstExceeding] at h
  | cons line rest ih =>
    rw [findFirstExceeding] at h
    by_cases hlt : t < line.time
    · rw [if_pos hlt] at h
      have hj : j = 0 := by
        have := Option.some.inj h
        omega
      subst hj
      refine ⟨by simp, by simpa using hlt, by omega⟩
    · rw [if_neg hlt] at h
      cases hr : findFirstExceeding t rest with
      | none => rw [hr] at h; simp at h
      | some j0 =>
        rw [hr] at h
        simp at h
        obtain ⟨h1, h2, h3⟩ := ih j0 hr
        subst h
        refine ⟨by simpa using h1, by simpa using h2, ?_⟩
        intro i hi
        cases i with
        | zero => simpa using hlt
        | succ i0 =>
          have := h3 i0 (by omega)
          simpa using this

theorem findFirstExceeding_none (t : Rat) (script : List TranscriptLine) :
    findFirstExceeding t script = none ↔ ∀ l ∈ script, ¬ t < l.time := by
  induction script with
  | nil => simp [findFirstExceeding]
  | cons line rest ih =>
    rw [findFirstExceeding]
    by_cases hlt : t < line.time
    · rw [if_pos hlt]
      simp [hlt]
    · rw [if_neg hlt]
      constructor
      · intro h
        have : findFirstExceeding t rest = none := by
          cases hr : findFirstExceeding t rest with
          | none => rfl
          | some j0 => rw [hr] at h; simp at h
        intro l hl
        rcases List.mem_cons.mp hl with h1 | h1
        · rw [h1]; exact hlt
        · exact (ih.mp this) l h1
      · intro h
        have : findFirstExceeding t rest = none :=
          ih.mpr fun l hl => h l (List.mem_cons_of_mem line hl)
        rw [this]
        rfl

theorem generateQuiz_noop (pick : Nat → Nat) (le : QuizQuestion → QuizQuestion → Bool)
    (s : AppState) (h : bankMissingOrEmpty s = true) :
    generateQuiz pick le s = (s, some emptyBankAlert) := by
  cases hd : s.activeData with
  | none => simp only [generateQuiz, hd]
  | some data =>
    cases hb : data.quizBank with
    | none => simp only [generateQuiz, hd, hb]
    | some bank =>
      simp only [bankMissingOrEmpty, hd, hb] at h
      have h0 : bank.length = 0 := by
        have := eq_of_beq h
        omega
      simp only [generateQuiz, hd, hb, if_pos h0]

theorem generateQuiz_quizSession (pick : Nat → Nat) (le : QuizQuestion → QuizQuestion → Bool)
    (s : AppState) (data : ActiveData) (bank : List QuizQuestion)
    (hdata : s.activeData = some data) (hbank : data.quizBank = some bank)
    (hne : ¬ bank.length = 0) :
    (generateQuiz pick le s).1.quizSession =
      assignIds (((padQuestions pick s.quizConfig.count
        (if (bank.filter (fun q => q.difficulty == s.quizConfig.difficulty)).length = 0
         then bank
         else bank.filter (fun q => q.difficulty == s.quizConfig.difficulty))).mergeSort le).take
        s.quizConfig.count) := by
  simp only [generateQuiz, hdata, hbank, if_neg hne]

theorem generateQuiz_bank_after (pick : Nat → Nat) (le : QuizQuestion → QuizQuestion → Bool)
    (s : AppState) (data : ActiveData) (bank : List QuizQuestion)
    (hdata : s.activeData = some data) (hbank : data.quizBank = some bank)
    (hne : ¬ bank.length = 0) :
    (generateQuiz pick le s).1.activeData = some
      { data with quizBank := some (if (bank.filter (fun q => q.difficulty == s.quizConfig.difficulty)).length = 0 then (padQuestions pick s.quizConfig.count bank).mergeSort le else bank) } := by
  by_cases hf : (bank.filter (fun q => q.difficulty == s.quizConfig.difficulty)).length = 0
  · simp only [generateQuiz, hdata, hbank, if_neg hne, if_pos hf]
  · simp only [generateQuiz, hdata, hbank, if_neg hne, if_neg hf]

theorem generateQuiz_view (pick : Nat → Nat) (le : QuizQuestion → QuizQuestion → Bool)
    (s : AppState) (data : ActiveData) (bank : List QuizQuestion)
    (hdata : s.activeData = some data) (hbank : data.quizBank = some bank)
    (hne : ¬ bank.length = 0) :
    (generateQuiz pick le s).1.view = View.quiz := by
  simp only [generateQuiz, hdata, hbank, if_neg hne]

theorem saveWord_twice (today : String) (v : VocabEntry) (stats : UserStats) :
    saveWord today v (saveWord today v stats) = saveWord today v stats := by
  by_cases hc : (stats.savedWords.find? (fun w => w.word == v.word)).isSome = true
  · simp only [saveWord, if_pos hc]
  · simp only [saveWord, if_neg hc]
    have hmem : (((stats.savedWords ++
        [({ word := v.word, type := v.type, meaning := v.meaning, date := today } : SavedWord)]).find?
          (fun w => w.word == v.word)).isSome) = true := by
      rw [List.find?_isSome]
      exact ⟨{ word := v.word, type := v.type, meaning := v.meaning, date := today },
        by simp, by simp⟩
    rw [if_pos hmem]

/-! ### Claim theorems -/

/-- C10: in a fresh session, before any user action, the cumulative user
stats are initialised to the fixed non-zero demo values `xp = 1250`,
`streak = 12`, `todayXp = 40`, `goalXp = 100` and an empty saved-word
set, so the cumulative totals do not start at zero. -/
theorem initialStats_demo_values :
    initialState.userStats.xp = 1250 ∧ initialState.userStats.streak = 12 ∧
    initialState.userStats.todayXp = 40 ∧ initialState.userStats.goalXp = 100 ∧
    initialState.userStats.savedWords = [] ∧
    initialState.userStats.xp ≠ 0 ∧ initialState.userStats.todayXp ≠ 0 := by
  decide

/-- C3: for every quiz completion with final score `s.score`, exactly
`score * 10 + 20` experience points are added to both the cumulative
and today's totals, the streak (and the rest of the stats) is left
unchanged, and the awarded amount is independent of the requested
difficulty. -/
theorem finishQuiz_reward (s : AppState) :
    (finishQuiz s).userStats.xp = s.userStats.xp + (s.score * 10 + 20) ∧
    (finishQuiz s).userStats.todayXp = s.userStats.todayXp + (s.score * 10 + 20) ∧
    (finishQuiz s).userStats.streak = s.userStats.streak ∧
    (finishQuiz s).userStats.goalXp = s.userStats.goalXp ∧
    (finishQuiz s).userStats.savedWords = s.userStats.savedWords ∧
    ∀ d : String,
      (finishQuiz { s with quizConfig := { s.quizConfig with difficulty := d } }).userStats =
        (finishQuiz s).userStats :=
  ⟨rfl, rfl, rfl, rfl, rfl, fun _ => rfl⟩

/-- C6: saving a vocabulary entry is idempotent by surface form: if an
entry with the same surface form is already saved the save leaves the
stats unchanged; otherwise the entry is appended exactly once with the
current calendar date attached; and saving the same entry twice leaves
the saved-set size unchanged after the second save. -/
theorem saveWord_idempotent_by_surface_form (today : String) (v : VocabEntry)
    (stats : UserStats) :
    ((∃ w ∈ stats.savedWords, w.word = v.word) → saveWord today v stats = stats) ∧
    (¬ (∃ w ∈ stats.savedWords, w.word = v.word) →
      (saveWord today v stats).savedWords = stats.savedWords ++
        [{ word := v.word, type := v.type, meaning := v.meaning, date := today }]) ∧
    (saveWord today v (saveWord today v stats)).savedWords.length =
      (saveWord today v stats).savedWords.length := by
  have hiff : (stats.savedWords.find? (fun w => w.word == v.word)).isSome = true ↔
      ∃ w ∈ stats.savedWords, w.word = v.word := by
    rw [List.find?_isSome]
    constructor
    · rintro ⟨w, hw, he⟩
      exact ⟨w, hw, by simpa using he⟩
    · rintro ⟨w, hw, he⟩
      exact ⟨w, hw, by simp [he]⟩
  refine ⟨?_, ?_, ?_⟩
  · intro hex
    simp only [saveWord, if_pos (hiff.mpr hex)]
  · intro hnex
    have hc : ¬ (stats.savedWords.find? (fun w => w.word == v.word)).isSome = true :=
      fun h => hnex (hiff.mp h)
    simp only [saveWord, if_neg hc]
  · rw [saveWord_twice]

/-- C5: for every analyze request that ends in a non-success HTTP
outcome or a network failure, the session error message is set to the
collaborator's provided detail string (or the default message), the
view returns to home, and the stored study bundle is left unchanged. -/
theorem handleUrlSubmit_failure (outcome : FetchOutcome) (s : AppState)
    (hurl : ¬ s.urlInput = "") (herr : outcome.isError = true) :
    (handleUrlSubmit outcome s).errorMsg = errorTextOf outcome ∧
    (handleUrlSubmit outcome s).view = View.home ∧
    (handleUrlSubmit outcome s).activeData = s.activeData := by
  cases outcome with
  | success data => simp [FetchOutcome.isError] at herr
  | httpError detail =>
    cases detail with
    | none => simp [handleUrlSubmit, if_neg hurl, errorTextOf]
    | some d => simp [handleUrlSubmit, if_neg hurl, errorTextOf]
  | networkError message => simp [handleUrlSubmit, if_neg hurl, errorTextOf]

/-- Witness for C5: a failed analyze call with detail `"bad url"` from
the home view with a URL typed in. -/
theorem handleUrlSubmit_failure_witness :
    (handleUrlSubmit (FetchOutcome.httpError (some "bad url")) urlTypedState).errorMsg =
      errorTextOf (FetchOutcome.httpError (some "bad url")) ∧
    (handleUrlSubmit (FetchOutcome.httpError (some "bad url")) urlTypedState).view = View.home ∧
    (handleUrlSubmit (FetchOutcome.httpError (some "bad url")) urlTypedState).activeData =
      urlTypedState.activeData :=
  handleUrlSubmit_failure (FetchOutcome.httpError (some "bad url")) urlTypedState
    (by decide) rfl

/-- C4: whenever the quiz bank is absent or empty, `generateQuiz` does
not transition to the quiz view, reports the empty-bank alert, and
leaves the view in quiz setup. -/
theorem generateQuiz_empty_bank_rejected (pick : Nat → Nat)
    (le : QuizQuestion → QuizQuestion → Bool) (s : AppState)
    (hview : s.view = View.quiz_setup) (hbank : bankMissingOrEmpty s = true) :
    (generateQuiz pick le s).1.view = View.quiz_setup ∧
    (generateQuiz pick le s).1.view ≠ View.quiz ∧
    (generateQuiz pick le s).2 = some emptyBankAlert := by
  have h := generateQuiz_noop pick le s hbank
  have h1 : (generateQuiz pick le s).1 = s := by rw [h]
  have h2 : (generateQuiz pick le s).2 = some emptyBankAlert := by rw [h]
  rw [h1, h2, hview]
  exact ⟨rfl, by decide, rfl⟩

/-- Witness for C4: the quiz-setup view with no study bundle loaded. -/
theorem generateQuiz_empty_bank_rejected_witness :
    (generateQuiz pick0 leTrue emptyBankState).1.view = View.quiz_setup ∧
    (generateQuiz pick0 leTrue emptyBankState).1.view ≠ View.quiz ∧
    (generateQuiz pick0 leTrue emptyBankState).2 = some emptyBankAlert :=
  generateQuiz_empty_bank_rejected pick0 leTrue emptyBankState rfl rfl

/-- C1: for every bank of size `n ≥ 1`, every requested count
`k ∈ {3,5,10}` and any requested difficulty, the built session is an
ordered list of exactly `k` questions whose session-local ids are
`0`-based and contiguous, regardless of how `n` compares to `k`. -/
theorem generateQuiz_session_length (pick : Nat → Nat)
    (le : QuizQuestion → QuizQuestion → Bool) (s : AppState) (data : ActiveData)
    (bank : List QuizQuestion)
    (hdata : s.activeData = some data) (hbank : data.quizBank = some bank)
    (hn : 1 ≤ bank.length)
    (hk : s.quizConfig.count = 3 ∨ s.quizConfig.count = 5 ∨ s.quizConfig.count = 10) :
    (generateQuiz pick le s).1.quizSession.length = s.quizConfig.count ∧
    (generateQuiz pick le s).1.quizSession.map SessionQuestion.id =
      List.range s.quizConfig.count := by
  have hne : ¬ bank.length = 0 := by omega
  rw [generateQuiz_quizSession pick le s data bank hdata hbank hne]
  have hlen : (((padQuestions pick s.quizConfig.count
      (if (bank.filter (fun q => q.difficulty == s.quizConfig.difficulty)).length = 0
       then bank
       else bank.filter (fun q => q.difficulty == s.quizConfig.difficulty))).mergeSort le).take
        s.quizConfig.count).length = s.quizConfig.count := by
    rw [List.length_take, (List.mergeSort_perm _ le).length_eq]
    have := padQuestions_count_le pick s.quizConfig.count
      (if (bank.filter (fun q => q.difficulty == s.quizConfig.difficulty)).length = 0
       then bank
       else bank.filter (fun q => q.difficulty == s.quizConfig.difficulty))
    omega
  constructor
  · rw [assignIds_length, hlen]
  · rw [assignIds_map_id, hlen]

/-- Witness for C1: the one-question easy bank, requested count 3,
requested difficulty easy. -/
theorem generateQuiz_session_length_witness :
    (generateQuiz pick0 leTrue setupState).1.quizSession.length = 3 ∧
    (generateQuiz pick0 leTrue setupState).1.quizSession.map SessionQuestion.id =
      List.range 3 :=
  generateQuiz_session_length pick0 leTrue setupState demoActive [easyQuestion] rfl rfl
    (by decide) (Or.inl rfl)

theorem generateQuiz_matches_filtered (pick : Nat → Nat)
    (le : QuizQuestion → QuizQuestion → Bool) (s : AppState) (data : ActiveData)
    (bank : List QuizQuestion)
    (hdata : s.activeData = some data) (hbank : data.quizBank = some bank)
    (hf : ¬ (bank.filter (fun q => q.difficulty == s.quizConfig.difficulty)).length = 0) :
    ∀ sq ∈ (generateQuiz pick le s).1.quizSession,
      sq.difficulty = s.quizConfig.difficulty := by
  have hne : ¬ bank.length = 0 := by
    intro h0
    apply hf
    cases bank with
    | nil => simp
    | cons q qs => simp at h0
  rw [generateQuiz_quizSession pick le s data bank hdata hbank hne, if_neg hf]
  intro sq hsq
  obtain ⟨q, hq, he⟩ := assignIdsFrom_difficulty 0 _ sq hsq
  have h1 : q ∈ (padQuestions pick s.quizConfig.count
      (bank.filter (fun q => q.difficulty == s.quizConfig.difficulty))).mergeSort le :=
    List.mem_of_mem_take hq
  have h2 : q ∈ padQuestions pick s.quizConfig.count
      (bank.filter (fun q => q.difficulty == s.quizConfig.difficulty)) :=
    (List.mergeSort_perm _ le).mem_iff.mp h1
  have h3 : q ∈ bank.filter (fun q => q.difficulty == s.quizConfig.difficulty) :=
    padQuestions_mem pick s.quizConfig.count _
      (fun hnil => hf (by rw [hnil]; rfl)) q h2
  have h4 := List.mem_filter.mp h3
  rw [he]
  exact eq_of_beq h4.2

/-- C8: for every bank with at least one question matching the
requested difficulty, no non-matching question appears in the built
session unless the matching subset's size is below the requested count
(here: whenever the matching subset has at least `count` questions,
every session question matches the requested difficulty; the code in
fact never includes a non-matching question once one matches). -/
theorem generateQuiz_difficulty_preference (pick : Nat → Nat)
    (le : QuizQuestion → QuizQuestion → Bool) (s : AppState) (data : ActiveData)
    (bank : List QuizQuestion)
    (hdata : s.activeData = some data) (hbank : data.quizBank = some bank)
    (hmatch : ¬ (bank.filter (fun q => q.difficulty == s.quizConfig.difficulty)).length = 0)
    (hcount : s.quizConfig.count ≤
      (bank.filter (fun q => q.difficulty == s.quizConfig.difficulty)).length) :
    (generateQuiz pick le s).1.quizSession.all
      (fun sq => sq.difficulty == s.quizConfig.difficulty) = true := by
  rw [List.all_eq_true]
  intro sq hsq
  exact beq_iff_eq.mpr
    (generateQuiz_matches_filtered pick le s data bank hdata hbank hmatch sq hsq)

/-- Witness for C8: a three-question easy bank, requested count 3,
requested difficulty easy. -/
theorem generateQuiz_difficulty_preference_witness :
    (generateQuiz pick0 leTrue bigBankState).1.quizSession.all
      (fun sq => sq.difficulty == "easy") = true :=
  generateQuiz_difficulty_preference pick0 leTrue bigBankState
    { demoActive with quizBank := some [easyQuestion, easyQuestion2, easyQuestion3] }
    [easyQuestion, easyQuestion2, easyQuestion3] rfl rfl (by decide) (by decide)

/-- C7 (code bug): the spec says the server-provided bank is never
mutated, but when the difficulty filter comes up empty `questions`
aliases the bank array, and the padding `push`es and the in-place
`sort` then mutate the bank through the alias: generating a 3-question
quiz against the 1-question all-easy bank at requested difficulty
`hard` grows the stored bank from length 1 to length 3. -/
theorem generateQuiz_mutates_aliased_bank :
    storedBankLength fallbackState = some 1 ∧
    storedBankLength (generateQuiz pick0 leTrue fallbackState).1 = some 3 := by
  constructor
  · rfl
  · have hb := generateQuiz_bank_after pick0 leTrue fallbackState demoActive [easyQuestion]
      rfl rfl (by decide)
    have hfe : (([easyQuestion] : List QuizQuestion).filter
        (fun q => q.difficulty == fallbackState.quizConfig.difficulty)).length = 0 := by
      decide
    rw [if_pos hfe] at hb
    rw [storedBankLength, hb]
    simp only [Option.map]
    rw [(List.mergeSort_perm _ leTrue).length_eq, padQuestions_length]
    decide

/-- C2 (amended): for a transcript sorted by non-decreasing timestamps,
whenever some line's timestamp strictly exceeds the playback time `t`
and the first such index is `j`, the index stored by the handler is the
clamp `max 0 (j-1)`: for `j ≥ 1` it satisfies
`time[j-1] ≤ t < time[j]`, and for `j = 0` (`t` precedes every line) it
is the clamp to the first line; but when `t` is at or past every
line's timestamp the handler leaves the active index unchanged instead
of moving it to the last line. -/
theorem onProgress_active_interval (script : List TranscriptLine) (current : Nat) (t : Rat)
    (hsorted : script.Pairwise (fun a b => a.time ≤ b.time)) :
    (∀ j, findFirstExceeding t script = some j →
      (onProgress script current t).2 = j - 1 ∧
      (j = 0 → t < (script.getD 0 default).time) ∧
      (1 ≤ j → (script.getD (j - 1) default).time ≤ t ∧
        t < (script.getD j default).time)) ∧
    (findFirstExceeding t script = none →
      (onProgress script current t).2 = current ∧ ∀ l ∈ script, l.time ≤ t) := by
  constructor
  · intro j hj
    obtain ⟨hjlen, hjt, hfirst⟩ := findFirstExceeding_some t script j hj
    have hval : (onProgress script current t).2 = j - 1 := by
      simp only [onProgress, hj]
      by_cases hg : (j : Int) - 1 ≠ (current : Int)
      · rw [if_pos hg]
        omega
      · rw [if_neg hg]
        omega
    refine ⟨hval, ?_, ?_⟩
    · intro h0
      subst h0
      exact hjt
    · intro h1
      exact ⟨not_lt.mp (hfirst (j - 1) (by omega)), hjt⟩
  · intro hn
    refine ⟨by simp only [onProgress, hn], ?_⟩
    intro l hl
    exact not_lt.mp ((findFirstExceeding_none t script).mp hn l hl)

/-- Witness for C2 (amended): the sorted two-line transcript with times
0 and 10, current index 0, playback time 5. -/
theorem onProgress_active_interval_witness :
    (∀ j, findFirstExceeding 5 demoScript = some j →
      (onProgress demoScript 0 5).2 = j - 1 ∧
      (j = 0 → (5 : Rat) < (demoScript.getD 0 default).time) ∧
      (1 ≤ j → (demoScript.getD (j - 1) default).time ≤ 5 ∧
        (5 : Rat) < (demoScript.getD j default).time)) ∧
    (findFirstExceeding 5 demoScript = none →
      (onProgress demoScript 0 5).2 = 0 ∧ ∀ l ∈ demoScript, l.time ≤ 5) :=
  onProgress_active_interval demoScript 0 5 (by decide)

/-- C2 as stated is false on the code: on the sorted two-line
transcript with times 0 and 10, current index 0 and playback time 20
(at or past every line's timestamp), the handler leaves the index at 0,
which is neither the last index nor an index whose timestamp interval
contains 20. -/
theorem onProgress_no_last_clamp_counterexample :
    demoScript.Pairwise (fun a b => a.time ≤ b.time) ∧
    (onProgress demoScript 0 20).2 = 0 ∧
    (demoScript.getD (demoScript.length - 1) default).time ≤ 20 ∧
    (onProgress demoScript 0 20).2 ≠ demoScript.length - 1 ∧
    ¬ ((demoScript.getD (onProgress demoScript 0 20).2 default).time ≤ 20 ∧
       (20 : Rat) < (demoScript.getD ((onProgress demoScript 0 20).2 + 1) default).time) := by
  decide

theorem findFirstExceeding_all_lt (t : Rat) (script : List TranscriptLine)
    (hne : script ≠ []) (h0 : ∀ l ∈ script, t < l.time) :
    findFirstExceeding t script = some 0 := by
  cases script with
  | nil => exact absurd rfl hne
  | cons line rest =>
    rw [findFirstExceeding, if_pos (h0 line (List.mem_cons_self line rest))]

/-- C9 (amended): the handler invokes the state setter exactly when the
scan finds an index `j` with the unclamped `j - 1` (as an integer)
different from the current index; when the setter is not invoked the
index is untouched; every invocation with `j ≥ 1` stores a value
different from the current one; and the redundant case does occur: on a
nonempty transcript whose every line's timestamp strictly exceeds the
playback time, with current index 0, the setter is invoked yet stores
the clamped value 0, leaving the index equal to the current one. -/
theorem onProgress_emit_iff_guard (script : List TranscriptLine) (current : Nat)
    (t : Rat) :
    ((onProgress script current t).1 = true ↔
      ∃ j, findFirstExceeding t script = some j ∧ (j : Int) - 1 ≠ (current : Int)) ∧
    ((onProgress script current t).1 = false → (onProgress script current t).2 = current) ∧
    (∀ j, findFirstExceeding t script = some j → (j : Int) - 1 ≠ (current : Int) →
      (onProgress script current t).2 = j - 1 ∧
      (1 ≤ j → (onProgress script current t).2 ≠ current)) ∧
    (findFirstExceeding t script = some 0 → current = 0 →
      (onProgress script current t).1 = true ∧
      (onProgress script current t).2 = current) ∧
    (script ≠ [] → (∀ l ∈ script, t < l.time) → current = 0 →
      (onProgress script current t).1 = true ∧
      (onProgress script current t).2 = current) := by
  cases hf : findFirstExceeding t script with
  | none =>
    have he : onProgress script current t = (false, current) := by
      simp only [onProgress, hf]
    refine ⟨⟨fun h => ?_, fun h => ?_⟩, fun _ => ?_, fun j0 hj0 hg0 => ?_,
      fun h0 hc0 => ?_, fun hne h0 hc0 => ?_⟩
    · rw [he] at h
      exact absurd h (by simp)
    · obtain ⟨j1, hj1, -⟩ := h
      exact absurd hj1 (by simp)
    · rw [he]
    · exact absurd hj0 (by simp)
    · exact absurd h0 (by simp)
    · have h00 := findFirstExceeding_all_lt t script hne h0
      rw [hf] at h00
      exact absurd h00 (by simp)
  | some j =>
    by_cases hg : (j : Int) - 1 ≠ (current : Int)
    · have he : onProgress script current t = (true, ((j : Int) - 1).toNat) := by
        simp only [onProgress, hf, if_pos hg]
      refine ⟨⟨fun _ => ⟨j, rfl, hg⟩, fun _ => ?_⟩, fun h => ?_, fun j0 hj0 hg0 => ?_,
        fun h0 hc0 => ?_, fun hne h0 hc0 => ?_⟩
      · rw [he]
      · rw [he] at h
        exact absurd h (by simp)
      · obtain rfl : j = j0 := Option.some.inj hj0
        rw [he]
        refine ⟨?_, fun h1 => ?_⟩
        · show ((j : Int) - 1).toNat = j - 1
          omega
        · show ((j : Int) - 1).toNat ≠ current
          omega
      · obtain rfl : j = 0 := Option.some.inj h0
        rw [he]
        refine ⟨rfl, ?_⟩
        show (((0 : Nat) : Int) - 1).toNat = current
        omega
      · have h00 := findFirstExceeding_all_lt t script hne h0
        obtain rfl : j = 0 := by
          rw [hf] at h00
          exact Option.some.inj h00
        rw [he]
        refine ⟨rfl, ?_⟩
        show (((0 : Nat) : Int) - 1).toNat = current
        omega
    · have hgeq : (j : Int) - 1 = (current : Int) := not_ne_iff.mp hg
      have he : onProgress script current t = (false, current) := by
        simp only [onProgress, hf, if_neg hg]
      refine ⟨⟨fun h => ?_, fun h => ?_⟩, fun _ => ?_, fun j0 hj0 hg0 => ?_,
        fun h0 hc0 => ?_, fun hne h0 hc0 => ?_⟩
      · rw [he] at h
        exact absurd h (by simp)
      · obtain ⟨j1, hj1, hg1⟩ := h
        obtain rfl : j = j1 := Option.some.inj hj1
        exact absurd hgeq hg1
      · rw [he]
      · obtain rfl : j = j0 := Option.some.inj hj0
        exact absurd hgeq hg0
      · obtain rfl : j = 0 := Option.some.inj h0
        exfalso
        omega
      · have h00 := findFirstExceeding_all_lt t script hne h0
        obtain rfl : j = 0 := by
          rw [hf] at h00
          exact Option.some.inj h00
        exfalso
        omega

/-- C9 as stated is false on the code: with the one-line transcript at
time 5, current index 0 and playback time 2, the scan finds index 0,
the guard compares the unclamped 0 - 1 = -1 with the current index 0
and therefore invokes the setter, yet the stored (clamped) value 0
equals the current index: the setter fires although the computed active
index does not differ. -/
theorem onProgress_redundant_emit_counterexample :
    (onProgress shortScript 0 2).1 = true ∧ (onProgress shortScript 0 2).2 = 0 := by
  decide

end TubeLingo
